import Mathlib

/-!
Shallow embedding of the rule-based fortune bot in
`src/lingling/lingling_bot_llm.py`: the session data model, the free-text
context parser, the per-topic rule engines, the renderer with its optional
rewrite step, and the conversation state machine, together with proofs of
the specification claims about them.

Python numbers are modelled over the rationals; Python `round(x, 2)` and
the `.2f` format are modelled with round-half-to-even on exact rationals.
-/

attribute [local semireducible] Rat.mul Rat.inv Rat.add Rat.sub Rat.ofScientific

namespace Lingling

/-! Python numeric primitives. -/

/-- Truncation toward zero: the value of Python int(q) on a float q. -/
def pyTrunc (q : ℚ) : ℤ := Int.tdiv q.num q.den

/-- Rounding to the nearest integer, ties to even: Python round(q). -/
def pyRound0 (q : ℚ) : ℤ :=
  if q - ⌊q⌋ < 1/2 then ⌊q⌋
  else if 1/2 < q - ⌊q⌋ then ⌊q⌋ + 1
  else if ⌊q⌋ % 2 = 0 then ⌊q⌋ else ⌊q⌋ + 1

/-- Python round(q, 2): round to the nearest multiple of 1/100. -/
def round2 (q : ℚ) : ℚ := (pyRound0 (q * 100) : ℚ) / 100

/-- Fixed two-decimal rendering of a rational: Python format spec .2f. -/
def fmt2 (q : ℚ) : String :=
  let n : ℤ := pyRound0 (q * 100)
  let m : ℕ := n.natAbs
  (if n < 0 then "-" else "")
    ++ toString (m / 100) ++ "."
    ++ (if m % 100 < 10 then "0" else "") ++ toString (m % 100)

/-- Python format spec +.2f: like fmt2 but with an explicit sign. -/
def fmt2p (q : ℚ) : String :=
  if pyRound0 (q * 100) < 0 then fmt2 q else "+" ++ fmt2 q

/-- Numeric value of a decimal digit string. -/
def digitsVal (cs : List Char) : ℕ :=
  cs.foldl (fun a c => 10 * a + (c.toNat - 48)) 0

/-! Python string primitives, modelled over the character list of a
string so that every operation evaluates by structural recursion. -/

/-- Characters of s up to but not including the first separator, and the
remaining characters after it (None when no separator occurs). -/
def splitCommaAux : List Char → List Char → List (List Char)
  | [], acc => [acc.reverse]
  | c :: rest, acc =>
      if c = ',' then acc.reverse :: splitCommaAux rest []
      else splitCommaAux rest (c :: acc)

/-- Python s.strip() on a character list: drop leading and trailing
whitespace. -/
def pyStripList (cs : List Char) : List Char :=
  ((cs.dropWhile Char.isWhitespace).reverse.dropWhile Char.isWhitespace).reverse

/-- Python s.strip(). -/
def pyStrip (s : String) : String := String.mk (pyStripList s.data)

/-- Python s.split(","). -/
def pySplitComma (s : String) : List String :=
  (splitCommaAux s.data []).map String.mk

/-- Python s.startswith(pre). -/
def pyStartsWith (s pre : String) : Bool := pre.data.isPrefixOf s.data

/-- Whether pat occurs as a contiguous substring of the character list. -/
def isSubAux (pat : List Char) : List Char → Bool
  | [] => pat.isEmpty
  | c :: rest => pat.isPrefixOf (c :: rest) || isSubAux pat rest

/-- Python `pat in s` on strings: substring containment. -/
def hasSubstr (s pat : String) : Bool := isSubAux pat.data s.data

/-- Python s.split(sep, 1)[1] for a single-character separator: the text
after the first occurrence of the separator. -/
def afterFirst (s : String) (sep : Char) : String :=
  String.mk ((s.data.dropWhile (fun c => c ≠ sep)).drop 1)

/-- Python float(s) on an optionally signed decimal literal
(sign, integer digits, optional fractional part); None when the
conversion raises ValueError. -/
def pyFloat? (s : String) : Option ℚ :=
  let p : ℚ × List Char :=
    match s.data with
    | '+' :: t => (1, t)
    | '-' :: t => (-1, t)
    | t => (1, t)
  let ip := p.2.takeWhile Char.isDigit
  let rest := p.2.drop ip.length
  match rest with
  | [] => if ip.isEmpty then none else some (p.1 * (digitsVal ip : ℚ))
  | '.' :: fp =>
      if fp.all Char.isDigit && !(ip.isEmpty && fp.isEmpty) then
        some (p.1 * ((digitsVal ip : ℚ) + (digitsVal fp : ℚ) / (10 : ℚ) ^ fp.length))
      else none
  | _ => none

/-- Python int(s) on an optionally signed integer literal; None when the
conversion raises ValueError. -/
def pyInt? (s : String) : Option ℤ :=
  match s.data with
  | '+' :: t => if !t.isEmpty && t.all Char.isDigit then some (digitsVal t) else none
  | '-' :: t => if !t.isEmpty && t.all Char.isDigit then some (-(digitsVal t : ℤ)) else none
  | t => if !t.isEmpty && t.all Char.isDigit then some (digitsVal t) else none

/-! Dynamically typed values stored in the session dictionaries. -/

/-- A Python value as stored in Session.context_vars: int, float, bool or
string. -/
inductive Value where
  | intV (n : ℤ)
  | floatV (q : ℚ)
  | boolV (b : Bool)
  | strV (s : String)
deriving DecidableEq, Repr

/-- Association list modelling a Python dict with string keys. -/
abbrev AList (α : Type) := List (String × α)

/-- Python d.get(k): value of the first (hence only) binding of k. -/
def dictGet {α : Type} (d : AList α) (k : String) : Option α :=
  (d.find? (fun p => p.1 == k)).map (fun p => p.2)

/-- Python d[k] = v: replace the binding of k in place, else append. -/
def dictSet {α : Type} : AList α → String → α → AList α
  | [], k, v => [(k, v)]
  | (k0, v0) :: t, k, v =>
      if k0 == k then (k0, v) :: t else (k0, v0) :: dictSet t k v

/-- Python d.update(kvs): set every binding of kvs in order. -/
def dictUpdate {α : Type} (d : AList α) (kvs : AList α) : AList α :=
  kvs.foldl (fun acc p => dictSet acc p.1 p.2) d

/-- The keys of a dict, in insertion order. -/
def dictKeys {α : Type} (d : AList α) : List String := d.map (fun p => p.1)

/-- Python float(v) on a stored value; None when it raises. -/
def pyFloatOfValue : Value → Option ℚ
  | .intV n => some (n : ℚ)
  | .floatV q => some q
  | .boolV b => some (if b then 1 else 0)
  | .strV s => pyFloat? s

/-- Python int(v) on a stored value; None when it raises. -/
def pyIntOfValue : Value → Option ℤ
  | .intV n => some n
  | .floatV q => some (pyTrunc q)
  | .boolV b => some (if b then 1 else 0)
  | .strV s => pyInt? s

/-- Python bool(v) on a stored value (total). -/
def pyBoolOfValue : Value → Bool
  | .intV n => n != 0
  | .floatV q => q != 0
  | .boolV b => b
  | .strV s => s != ""

/-- Python `x or dflt` for an optional string x (None and "" are falsy). -/
def pyOr (o : Option String) (dflt : String) : String :=
  match o with
  | none => dflt
  | some s => if s = "" then dflt else s

/-! The Session data model (lines 88-95 of the source). -/

/-- Per-user conversation state: class Session. -/
structure Session where
  user_id : ℤ
  topic : Option String := none
  question : Option String := none
  time_horizon : Option String := none
  micro : AList String := []
  context_vars : AList Value := []
deriving DecidableEq, Repr

/-- Python sess.micro.get(k, dflt). -/
def microGet (m : AList String) (k dflt : String) : String :=
  (dictGet m k).getD dflt

/-! Conversation states (range(5) at lines 69-75; ConversationHandler.END
is -1 in the underlying library). -/

def CHOOSING_TOPIC : ℤ := 0
def MICRO_Q1 : ℤ := 1
def MICRO_Q2 : ℤ := 2
def MICRO_Q3 : ℤ := 3
def COLLECT_CONTEXT : ℤ := 4
def CONV_END : ℤ := -1

/-! The free-text context parser inside on_collect_context
(lines 256-318). -/

/-- The affirmative tokens the career parser recognizes for the
portfolio field (line 265). -/
def affirmatives : List String := ["是", "有", "yes", "Yes", "y", "Y"]

/-- Field i as a float with default: float(parts[i]) if len(parts) > i
else dflt. -/
def fieldF (parts : List String) (i : ℕ) (dflt : ℚ) : Option ℚ :=
  match parts[i]? with
  | none => some dflt
  | some s => pyFloat? s

/-- Field i as int(float(.)) with default: int(float(parts[i])) if
len(parts) > i else dflt. -/
def fieldIF (parts : List String) (i : ℕ) (dflt : ℤ) : Option ℤ :=
  match parts[i]? with
  | none => some dflt
  | some s => (pyFloat? s).map pyTrunc

/-- Field i as a string with default: parts[i] if len(parts) > i else
dflt. -/
def fieldS (parts : List String) (i : ℕ) (dflt : String) : String :=
  (parts[i]?).getD dflt

/-- Outcome of the try-block of on_collect_context: the new
context-variable bindings, a conversion exception, or the unsupported
topic branch. -/
inductive ParseOutcome where
  | ok (kvs : AList Value)
  | fail
  | unsupported
deriving DecidableEq, Repr

/-- The career branch of the parsing pass (lines 259-267). -/
def parseCareer (parts : List String) : ParseOutcome :=
  match fieldF parts 0 0, fieldF parts 2 0 with
  | some years, some cash_buf =>
      .ok [("years", .floatV years),
           ("portfolio", .boolV (affirmatives.contains (fieldS parts 1 "否"))),
           ("cash_buffer_months", .floatV cash_buf)]
  | _, _ => .fail

/-- The study branch of the parsing pass (lines 268-276). -/
def parseStudy (parts : List String) : ParseOutcome :=
  match fieldF parts 0 0, fieldF parts 1 0, fieldIF parts 2 30 with
  | some cur_score, some hours, some ddl_days =>
      .ok [("current_score", .floatV cur_score),
           ("hours_per_week", .floatV hours),
           ("ddl_days", .intV ddl_days)]
  | _, _, _ => .fail

/-- The finance branch of the parsing pass (lines 277-285). -/
def parseFinance (parts : List String) : ParseOutcome :=
  match fieldF parts 0 0, fieldF parts 1 10, fieldF parts 2 0 with
  | some exp_years, some max_dd, some budget =>
      .ok [("exp_years", .floatV exp_years),
           ("max_drawdown_pct", .floatV max_dd),
           ("budget_month", .floatV budget)]
  | _, _, _ => .fail

/-- The love branch of the parsing pass (lines 286-294). -/
def parseLove (parts : List String) : ParseOutcome :=
  match fieldF parts 1 0 with
  | some freq =>
      .ok [("status", .strV (fieldS parts 0 "未知")),
           ("comm_freq_per_week", .floatV freq),
           ("distance", .strV (fieldS parts 2 "同城"))]
  | _ => .fail

/-- The health branch of the parsing pass (lines 295-303). -/
def parseHealth (parts : List String) : ParseOutcome :=
  match fieldF parts 0 7, fieldF parts 1 0, fieldIF parts 2 3 with
  | some sleep_h, some sport, some stress =>
      .ok [("sleep_h", .floatV sleep_h),
           ("sport_freq", .floatV sport),
           ("stress", .intV (max 1 (min stress 5)))]
  | _, _, _ => .fail

/-- The growth branch of the parsing pass (lines 304-312). -/
def parseGrowth (parts : List String) : ParseOutcome :=
  match fieldF parts 1 0 with
  | some hours =>
      .ok [("goal", .strV (fieldS parts 0 "自我提升")),
           ("hours_per_week", .floatV hours),
           ("pain_point", .strV (fieldS parts 2 "不明确"))]
  | _ => .fail

/-- The per-topic parsing pass of on_collect_context (lines 258-315):
splits on commas, strips each part, and converts the positional fields of
the branch selected by the current topic. -/
def parseContext (topic : Option String) (text : String) : ParseOutcome :=
  let parts := (pySplitComma text).map pyStrip
  match topic with
  | some "career" => parseCareer parts
  | some "study" => parseStudy parts
  | some "finance" => parseFinance parts
  | some "love" => parseLove parts
  | some "health" => parseHealth parts
  | some "growth" => parseGrowth parts
  | _ => .unsupported

/-! Conversation handlers, restricted to their effect on the session and
the returned conversation state (the outbound chat messages are pure
renderings handled separately below). -/

/-- The /start handler (lines 118-127): install a fresh Session and ask
for a topic. -/
def start (uid : ℤ) : Session × ℤ := ({ user_id := uid }, CHOOSING_TOPIC)

/-- The /menu handler (lines 129-135): session untouched. -/
def menu (sess? : Option Session) : Option Session × ℤ := (sess?, CHOOSING_TOPIC)

/-- on_topic_callback (lines 138-167): reuse the stored session (or make
a fresh one), record the chosen topic; oracle skips the micro questions
and returns to CHOOSING_TOPIC, every other topic proceeds to MICRO_Q1. -/
def on_topic_callback (sess? : Option Session) (uid : ℤ) (data : String) :
    Session × ℤ :=
  let sess := sess?.getD { user_id := uid }
  if pyStartsWith data "topic:" then
    let topic := afterFirst data ':'
    let sess1 := { sess with topic := some topic }
    if topic = "oracle" then (sess1, CHOOSING_TOPIC) else (sess1, MICRO_Q1)
  else (sess, CHOOSING_TOPIC)

/-- on_micro_q1 (lines 169-185): record the time horizon. -/
def on_micro_q1 (sess? : Option Session) (data : String) : Option Session × ℤ :=
  match sess? with
  | none => (none, CHOOSING_TOPIC)
  | some sess =>
      if pyStartsWith data "t:" then
        (some { sess with time_horizon := some (afterFirst data ':') }, MICRO_Q2)
      else (some sess, MICRO_Q1)

/-- on_micro_q2 (lines 187-203): record the orientation answer. -/
def on_micro_q2 (sess? : Option Session) (data : String) : Option Session × ℤ :=
  match sess? with
  | none => (none, CHOOSING_TOPIC)
  | some sess =>
      if pyStartsWith data "ori:" then
        (some { sess with micro := dictSet sess.micro "orientation" (afterFirst data ':') },
         MICRO_Q3)
      else (some sess, MICRO_Q2)

/-- on_micro_q3 (lines 205-247): record the investment answer and move to
free-text context collection. -/
def on_micro_q3 (sess? : Option Session) (data : String) : Option Session × ℤ :=
  match sess? with
  | none => (none, CHOOSING_TOPIC)
  | some sess =>
      if pyStartsWith data "inv:" then
        (some { sess with micro := dictSet sess.micro "investment" (afterFirst data ':') },
         COLLECT_CONTEXT)
      else (some sess, MICRO_Q3)

/-- on_collect_context (lines 250-330): strip the text, run the per-topic
parsing pass; a conversion exception is caught and the machine re-prompts
in COLLECT_CONTEXT with the session untouched, an unsupported topic goes
back to topic selection, and a successful parse updates context_vars and
finishes the run. -/
def on_collect_context (sess? : Option Session) (text0 : String) :
    Option Session × ℤ :=
  match sess? with
  | none => (none, CONV_END)
  | some sess =>
      let text := pyStrip text0
      match parseContext sess.topic text with
      | .unsupported => (some sess, CHOOSING_TOPIC)
      | .fail => (some sess, COLLECT_CONTEXT)
      | .ok kvs =>
          (some { sess with context_vars := dictUpdate sess.context_vars kvs },
           CHOOSING_TOPIC)

/-! The rule engines (lines 332-517). -/

/-- Result dict of a rule engine. -/
structure RuleResult where
  title : String
  horizon : String
  prob : ℚ
  explain : String
  opportunity : String
  risk : String
  actions : List String
deriving DecidableEq, Repr

/-- The clamp max(0.05, min(0.95, x)) every probability passes through. -/
def clamp0595 (x : ℚ) : ℚ := max (5/100) (min (95/100) x)

/-- Career action list for the time-investment branch (lines 388-392). -/
def career_actions_time : List String :=
  ["本周至少投递 20 份定制化简历",
   "更新/打磨 1 个作品集案例，并发到公开平台",
   "联系 3 位行业前辈约 15 分钟电话/咖啡聊"]

/-- Career action list for the budget-investment branch (lines 394-398). -/
def career_actions_budget : List String :=
  ["投入少量预算做作品集展示页或头像简历设计",
   "购买 1 门针对性课程，7 天内完成 30%",
   "报名 1 场行业活动，现场建立 5 个新连接"]

/-- Experience factor of the career engine (lines 363-371). -/
def career_factor (years : ℚ) : ℚ :=
  if years < 1 then 9/10
  else if years < 3 then 1
  else if years < 5 then 105/100
  else 11/10

/-- Portfolio adjustment of the career engine (line 373). -/
def career_adj_portfolio (p : Bool) : ℚ := if p then 8/100 else 0

/-- Cash-buffer adjustment of the career engine (lines 374-379). -/
def career_adj_cash (c : ℚ) : ℚ :=
  if c < 3 then -(3/100) else if 6 ≤ c then 3/100 else 0

/-- The explain f-string of the career engine (line 411). -/
def careerExplain (b f a1 a2 : ℚ) : String :=
  "基线" ++ fmt2 b ++ " × 经验因子" ++ fmt2 f ++ " + 作品集" ++ fmt2p a1
    ++ " + 现金缓冲" ++ fmt2p a2

/-- career_rule_engine (lines 357-415); None when a float() cast of a
stored context value raises. -/
def career_rule_engine (sess : Session) : Option RuleResult :=
  match pyFloatOfValue ((dictGet sess.context_vars "years").getD (.intV 0)),
        pyFloatOfValue ((dictGet sess.context_vars "cash_buffer_months").getD (.intV 0)) with
  | some years, some cash_buf =>
      let portfolio := pyBoolOfValue ((dictGet sess.context_vars "portfolio").getD (.boolV false))
      let factor := career_factor years
      let adj_portfolio := career_adj_portfolio portfolio
      let adj_cash := career_adj_cash cash_buf
      let orientation := microGet sess.micro "orientation" "stable"
      let investment := microGet sess.micro "investment" "time"
      some
        { title := "🌟 事业/工作占卜"
          horizon := pyOr sess.time_horizon "3m"
          prob := round2 (clamp0595 (45/100 * factor + adj_portfolio + adj_cash))
          explain := careerExplain (45/100) factor adj_portfolio adj_cash
          opportunity :=
            if orientation = "break" then "更大胆的岗位跨度/地域探索可能给你带来意外窗口"
            else "在现有赛道做垂直深挖，短期更易获得正反馈"
          risk :=
            if orientation = "break" then "过度追新可能忽略稳定的成长曲线"
            else "过于保守可能错过周期回暖的上车点"
          actions :=
            if investment = "time" then career_actions_time else career_actions_budget }
  | _, _ => none

/-- Level factor of the study engine (lines 425-431). -/
def study_factor (cur : ℚ) : ℚ :=
  if 85 ≤ cur then 11/10 else if 70 ≤ cur then 1 else 19/20

/-- Weekly-hours adjustment of the study engine (lines 433-438). -/
def study_adj_hours (hours : ℚ) : ℚ :=
  if 14 ≤ hours then 8/100 else if 7 ≤ hours then 4/100 else 0

/-- Deadline adjustment of the study engine (lines 440-443). -/
def study_adj_ddl (ddl : ℤ) : ℚ := if ddl < 14 then -(5/100) else 0

/-- The explain f-string of the study engine (line 456). -/
def studyExplain (b f a1 a2 : ℚ) : String :=
  "基线" ++ fmt2 b ++ " × 水平因子" ++ fmt2 f ++ " + 投入" ++ fmt2p a1
    ++ " + 期限" ++ fmt2p a2

/-- Fixed study action list (lines 447-451). -/
def study_actions : List String :=
  ["采用番茄钟：每天 2~3 个 25min 深度块",
   "过去真题错题本复盘，锁定 2 个高频薄弱点",
   "每周一次 90min 模拟题，复盘用 3 色笔标注"]

/-- study_rule_engine (lines 419-460). -/
def study_rule_engine (sess : Session) : Option RuleResult :=
  match pyFloatOfValue ((dictGet sess.context_vars "current_score").getD (.intV 0)),
        pyFloatOfValue ((dictGet sess.context_vars "hours_per_week").getD (.intV 0)),
        pyIntOfValue ((dictGet sess.context_vars "ddl_days").getD (.intV 30)) with
  | some cur, some hours, some ddl =>
      let factor := study_factor cur
      let adj_hours := study_adj_hours hours
      let adj_ddl := study_adj_ddl ddl
      some
        { title := "📚 学业/考试占卜"
          horizon := pyOr sess.time_horizon "3m"
          prob := round2 (clamp0595 (40/100 * factor + adj_hours + adj_ddl))
          explain := studyExplain (40/100) factor adj_hours adj_ddl
          opportunity := "稳定的学习节律会快速抬升分数下限"
          risk := "临近DDL的焦虑会侵蚀专注力"
          actions := study_actions }
  | _, _, _ => none

/-- Experience factor of the finance engine (lines 470-474). -/
def finance_factor (expy : ℚ) : ℚ :=
  if expy < 1 then 19/20 else if 3 < expy then 105/100 else 1

/-- Risk-tolerance adjustment of the finance engine (lines 476-481). -/
def finance_adj_dd (dd : ℚ) : ℚ :=
  if dd < 8 then -(2/100) else if 25 < dd then -(2/100) else 2/100

/-- The explain f-string of the finance engine (line 494). -/
def financeExplain (b f a : ℚ) : String :=
  "基线" ++ fmt2 b ++ " × 经验因子" ++ fmt2 f ++ " + 风险偏好" ++ fmt2p a

/-- Fixed finance action list (lines 485-489). -/
def finance_actions : List String :=
  ["设定月度自动定投，占比不超过可支配收入的 20%",
   "同时持有 3~5 个低相关资产，月度再平衡",
   "写下『最大回撤止损线』并严格执行"]

/-- finance_rule_engine (lines 464-498); the monthly budget is read and
cast but unused in the formula, exactly as in the source. -/
def finance_rule_engine (sess : Session) : Option RuleResult :=
  match pyFloatOfValue ((dictGet sess.context_vars "exp_years").getD (.intV 0)),
        pyFloatOfValue ((dictGet sess.context_vars "max_drawdown_pct").getD (.intV 10)),
        pyFloatOfValue ((dictGet sess.context_vars "budget_month").getD (.intV 0)) with
  | some expy, some dd, some _budget =>
      let factor := finance_factor expy
      let adj_dd := finance_adj_dd dd
      some
        { title := "💰 财务/投资占卜"
          horizon := pyOr sess.time_horizon "3m"
          prob := round2 (clamp0595 (50/100 * factor + adj_dd))
          explain := financeExplain (50/100) factor adj_dd
          opportunity := "纪律型策略在中长期更容易校准预期"
          risk := "过高或过低的风险偏好都会削弱收益质量"
          actions := finance_actions }
  | _, _, _ => none

/-- The explain f-string of the generic engine (line 513). -/
def genericExplain (b : ℚ) : String := "基线" ++ fmt2 b

/-- Fixed generic action list (lines 504-508). -/
def generic_actions : List String :=
  ["记录今天让你心情+1的事情",
   "联系一位久未联络的朋友并表达感谢",
   "为本周设定一个可完成的小目标"]

/-- generic_template_engine (lines 502-517), the fallback for the topics
without a dedicated engine. -/
def generic_template_engine (sess : Session) (title : String)
    (baseline : ℚ := 52/100) : RuleResult :=
  { title := title
    horizon := pyOr sess.time_horizon "3m"
    prob := round2 (clamp0595 baseline)
    explain := genericExplain baseline
    opportunity := "细水长流的改变会在 2~4 周内显现"
    risk := "情绪波动可能让你中断节律"
    actions := generic_actions }

/-- The four fixed oracle theme/hint pairs (lines 335-340). -/
def oracle_themes : List (String × String) :=
  [("🌿 自然与复原", "给自己留出呼吸的缝隙"),
   ("✨ 星光与灵感", "记录一个突然的想法并立刻行动 15 分钟"),
   ("🔥 行动与突破", "用一个小目标点燃今天的火花"),
   ("🌊 秩序与收敛", "把桌面与待办清一次，轻装前行")]

/-- The fixed oracle action list (lines 342-346). -/
def oracle_actions : List String :=
  ["写下今天最重要的一件事，并用 25 分钟完成第一步",
   "给一位可能帮助你的人发出一条真诚的信息",
   "补一杯水/做 10 个深呼吸，让节律回到身上"]

/-- generate_oracle (lines 334-353); random.choice over the four themes
is modelled by the explicit index choice. The session argument is taken
but, as in the source, never read. -/
def generate_oracle (sess : Session) (choice : Fin 4) : String :=
  let th := oracle_themes.getD choice.1 ("", "")
  "【随缘星叶指引】\n主题：" ++ th.1 ++ "\n机会：" ++ th.2
    ++ "\n风险：分心与犹豫会稀释星光\n行动三步：\n- " ++ oracle_actions.getD 0 ""
    ++ "\n- " ++ oracle_actions.getD 1 "" ++ "\n- " ++ oracle_actions.getD 2 ""
    ++ "\n若想更具体，只需回我一个主题：事业/感情/学业/财务/健康/成长"

/-- The engine dispatch of generate_by_topic (lines 559-574): which rule
engine serves which topic, and with which title and baseline. None for
oracle and unknown topics (which take the unsupported branch) and when a
dynamic cast inside a dedicated engine raises. -/
def ruleResultForTopic (sess : Session) : Option RuleResult :=
  match sess.topic with
  | some "career" => career_rule_engine sess
  | some "study" => study_rule_engine sess
  | some "finance" => finance_rule_engine sess
  | some "love" => some (generic_template_engine sess "💞 感情/关系占卜" (55/100))
  | some "health" => some (generic_template_engine sess "🩺 健康/作息占卜" (52/100))
  | some "growth" => some (generic_template_engine sess "🧭 自我成长占卜" (53/100))
  | _ => none

/-! The renderer (lines 519-555). -/

/-- Python str.join with a newline separator. -/
def joinLines : List String → String
  | [] => ""
  | [s] => s
  | s :: rest => s ++ "\n" ++ joinLines rest

/-- assemble_base_markdown (lines 521-532): the fixed text template every
rule-engine result is rendered through. -/
def assemble_base_markdown (res : RuleResult) : String :=
  let horizon :=
    match res.horizon with
    | "1m" => "本月"
    | "3m" => "三个月"
    | "6m" => "半年"
    | _ => "三个月"
  let actions_text := joinLines (res.actions.map (fun a => "- " ++ a))
  res.title ++ "｜时间窗口：" ++ horizon
    ++ "\n【结论】成功概率：" ++ fmt2 res.prob
    ++ "\n【依据】" ++ res.explain
    ++ "\n【机会】" ++ res.opportunity
    ++ "\n【风险】" ++ res.risk
    ++ "\n【行动三步】\n" ++ actions_text

/-- The supported topics of generate_by_topic. -/
def supported_topics : List String :=
  ["career", "study", "finance", "love", "health", "growth"]

/-- generate_by_topic (lines 559-577): rendered markdown for a supported
topic, the fixed unsupported message otherwise; None when a dedicated
engine raises on a badly typed stored value. -/
def generate_by_topic (sess : Session) : Option String :=
  match sess.topic with
  | some t =>
      if t ∈ supported_topics then (ruleResultForTopic sess).map assemble_base_markdown
      else some "暂不支持该主题。"
  | none => some "暂不支持该主题。"

/-- render_with_llm_or_plain (lines 534-555). The chat-completions call is
an external collaborator, modelled as the oracle llm that either returns
the rewritten text or raises the exception message it is mapped to; the
persona tag is accepted and, as in the source body, never used. -/
def render_with_llm_or_plain (use_llm : Bool) (llm : String → Except String String)
    (base_text : String) (persona : String := "generic") : String :=
  if !use_llm then
    base_text ++ "\n\n(提示：未设置 OPENAI_API_KEY，当前使用基础文案。)"
  else
    match llm base_text with
    | .ok out => pyStrip out
    | .error e => base_text ++ "\n\n(LLM 渲染失败，已回退基础文案：" ++ e ++ ")"

/-! The ConversationHandler wiring (lines 591-612) as an explicit event
step function, so that reachability of session states can be stated. -/

/-- An inbound event of the conversation: the /start command, a button
callback with its payload, or a free-text message. -/
inductive Event where
  | cmd_start (uid : ℤ)
  | callback (uid : ℤ) (data : String)
  | message (text : String)

/-- One step of the conversation machine: dispatch the event to the
handler registered for the current state whose pattern matches; any other
event is ignored and the state is unchanged (states at lines 596-605,
entry point /start with allow_reentry at lines 595-607). -/
def step (st : Option Session × ℤ) (ev : Event) : Option Session × ℤ :=
  match ev with
  | .cmd_start uid =>
      let p := start uid
      (some p.1, p.2)
  | .callback uid data =>
      if st.2 == CHOOSING_TOPIC && pyStartsWith data "topic:" then
        let p := on_topic_callback st.1 uid data
        (some p.1, p.2)
      else if st.2 == MICRO_Q1 && pyStartsWith data "t:" then
        on_micro_q1 st.1 data
      else if st.2 == MICRO_Q2 && pyStartsWith data "ori:" then
        on_micro_q2 st.1 data
      else if st.2 == MICRO_Q3 && pyStartsWith data "inv:" then
        on_micro_q3 st.1 data
      else st
  | .message text =>
      if st.2 == COLLECT_CONTEXT then on_collect_context st.1 text else st

/-- Run a list of events from the initial state (no session, topic
menu). -/
def runEvents (evs : List Event) : Option Session × ℤ :=
  evs.foldl step (none, CHOOSING_TOPIC)

/-! Supporting lemmas. -/

/-- pyRound0 never rounds down by more than one half. -/
lemma le_pyRound0 (q : ℚ) : q - 1/2 ≤ (pyRound0 q : ℚ) := by
  unfold pyRound0
  have h1 : ((⌊q⌋ : ℤ) : ℚ) ≤ q := Int.floor_le q
  have h2 : q < (⌊q⌋ : ℚ) + 1 := Int.lt_floor_add_one q
  split_ifs <;> push_cast <;> linarith

/-- pyRound0 never rounds up by more than one half. -/
lemma pyRound0_le (q : ℚ) : (pyRound0 q : ℚ) ≤ q + 1/2 := by
  unfold pyRound0
  have h1 : ((⌊q⌋ : ℤ) : ℚ) ≤ q := Int.floor_le q
  have h2 : q < (⌊q⌋ : ℚ) + 1 := Int.lt_floor_add_one q
  split_ifs <;> push_cast <;> linarith

/-- Rounding to two decimals keeps a value of [0.05, 0.95] inside the
band, because the endpoints are themselves two-decimal values. -/
lemma round2_bounds {q : ℚ} (h1 : 5/100 ≤ q) (h2 : q ≤ 95/100) :
    5/100 ≤ round2 q ∧ round2 q ≤ 95/100 := by
  have hl := le_pyRound0 (q * 100)
  have hu := pyRound0_le (q * 100)
  have hn5 : (5 : ℤ) ≤ pyRound0 (q * 100) := by
    have h4 : (4 : ℤ) < pyRound0 (q * 100) := by
      exact_mod_cast (by linarith : (4 : ℚ) < (pyRound0 (q * 100) : ℚ))
    omega
  have hn95 : pyRound0 (q * 100) ≤ 95 := by
    have h96 : pyRound0 (q * 100) < 96 := by
      exact_mod_cast (by linarith : (pyRound0 (q * 100) : ℚ) < 96)
    omega
  constructor
  · show (5 : ℚ)/100 ≤ (pyRound0 (q * 100) : ℚ) / 100
    have h5 : (5 : ℚ) ≤ (pyRound0 (q * 100) : ℚ) := by exact_mod_cast hn5
    linarith
  · show (pyRound0 (q * 100) : ℚ) / 100 ≤ 95/100
    have h95 : (pyRound0 (q * 100) : ℚ) ≤ 95 := by exact_mod_cast hn95
    linarith

/-- The clamp always lands inside [0.05, 0.95]. -/
lemma clamp0595_mem (x : ℚ) : 5/100 ≤ clamp0595 x ∧ clamp0595 x ≤ 95/100 := by
  unfold clamp0595
  exact ⟨le_max_left _ _, max_le (by norm_num) (min_le_left _ _)⟩

/-- The clamp is the identity on [0.05, 0.95]. -/
lemma clamp0595_eq_self {x : ℚ} (h1 : 5/100 ≤ x) (h2 : x ≤ 95/100) :
    clamp0595 x = x := by
  unfold clamp0595
  rw [min_eq_right h2, max_eq_right h1]

/-- A clamped and rounded probability lies in [0.05, 0.95]. -/
lemma round2_clamp_mem (x : ℚ) :
    5/100 ≤ round2 (clamp0595 x) ∧ round2 (clamp0595 x) ≤ 95/100 :=
  round2_bounds (clamp0595_mem x).1 (clamp0595_mem x).2

/-- The raw career formula stays inside [0.05, 0.95] on every branch, so
its clamp never binds. -/
lemma career_formula_mem (y c : ℚ) (p : Bool) :
    5/100 ≤ 45/100 * career_factor y + career_adj_portfolio p + career_adj_cash c ∧
      45/100 * career_factor y + career_adj_portfolio p + career_adj_cash c ≤ 95/100 := by
  unfold career_factor career_adj_portfolio career_adj_cash
  split_ifs <;> constructor <;> norm_num

/-- The raw study formula stays inside [0.05, 0.95] on every branch. -/
lemma study_formula_mem (cur hours : ℚ) (ddl : ℤ) :
    5/100 ≤ 40/100 * study_factor cur + study_adj_hours hours + study_adj_ddl ddl ∧
      40/100 * study_factor cur + study_adj_hours hours + study_adj_ddl ddl ≤ 95/100 := by
  unfold study_factor study_adj_hours study_adj_ddl
  split_ifs <;> constructor <;> norm_num

/-- The raw finance formula stays inside [0.05, 0.95] on every branch. -/
lemma finance_formula_mem (e d : ℚ) :
    5/100 ≤ 50/100 * finance_factor e + finance_adj_dd d ∧
      50/100 * finance_factor e + finance_adj_dd d ≤ 95/100 := by
  unfold finance_factor finance_adj_dd
  split_ifs <;> constructor <;> norm_num

/-- Destructing a successful career engine run: the probability, explain
string and action list in terms of the parsed inputs. -/
lemma career_rule_engine_shape {sess : Session} {res : RuleResult}
    (h : career_rule_engine sess = some res) :
    ∃ (y c : ℚ) (p : Bool),
      res.prob = round2 (clamp0595
        (45/100 * career_factor y + career_adj_portfolio p + career_adj_cash c)) ∧
      res.explain = careerExplain (45/100) (career_factor y)
        (career_adj_portfolio p) (career_adj_cash c) ∧
      res.actions = (if microGet sess.micro "investment" "time" = "time"
                     then career_actions_time else career_actions_budget) := by
  unfold career_rule_engine at h
  split at h
  · injection h with hh
    subst hh
    exact ⟨_, _, _, rfl, rfl, rfl⟩
  · simp at h

/-- Destructing a successful study engine run. -/
lemma study_rule_engine_shape {sess : Session} {res : RuleResult}
    (h : study_rule_engine sess = some res) :
    ∃ (cur hours : ℚ) (ddl : ℤ),
      res.prob = round2 (clamp0595
        (40/100 * study_factor cur + study_adj_hours hours + study_adj_ddl ddl)) ∧
      res.explain = studyExplain (40/100) (study_factor cur)
        (study_adj_hours hours) (study_adj_ddl ddl) ∧
      res.actions = study_actions := by
  unfold study_rule_engine at h
  split at h
  · injection h with hh
    subst hh
    exact ⟨_, _, _, rfl, rfl, rfl⟩
  · simp at h

/-- Destructing a successful finance engine run. -/
lemma finance_rule_engine_shape {sess : Session} {res : RuleResult}
    (h : finance_rule_engine sess = some res) :
    ∃ (e d : ℚ),
      res.prob = round2 (clamp0595 (50/100 * finance_factor e + finance_adj_dd d)) ∧
      res.explain = financeExplain (50/100) (finance_factor e) (finance_adj_dd d) ∧
      res.actions = finance_actions := by
  unfold finance_rule_engine at h
  split at h
  · injection h with hh
    subst hh
    exact ⟨_, _, rfl, rfl, rfl⟩
  · simp at h

/-- A failed parse leaves the session untouched and the machine in
COLLECT_CONTEXT. -/
lemma on_collect_context_fail {sess : Session} {text : String}
    (h : parseContext sess.topic (pyStrip text) = .fail) :
    on_collect_context (some sess) text = (some sess, COLLECT_CONTEXT) := by
  simp only [on_collect_context]
  rw [h]

/-- A successful parse updates context_vars with the new bindings and
returns to topic selection. -/
lemma on_collect_context_ok {sess : Session} {text : String} {kvs : AList Value}
    (h : parseContext sess.topic (pyStrip text) = .ok kvs) :
    on_collect_context (some sess) text
      = (some { sess with context_vars := dictUpdate sess.context_vars kvs },
         CHOOSING_TOPIC) := by
  simp only [on_collect_context]
  rw [h]

/-- The context-variable keys each topic parse can write. -/
def relevantKeys : String → List String
  | "career" => ["years", "portfolio", "cash_buffer_months"]
  | "study" => ["current_score", "hours_per_week", "ddl_days"]
  | "finance" => ["exp_years", "max_drawdown_pct", "budget_month"]
  | "love" => ["status", "comm_freq_per_week", "distance"]
  | "health" => ["sleep_h", "sport_freq", "stress"]
  | "growth" => ["goal", "hours_per_week", "pain_point"]
  | _ => []

/-- A successful parse writes exactly the keys of its topic, in order,
when starting from an empty dict. -/
lemma parseContext_ok_fresh_keys {t text : String} {kvs : AList Value}
    (h : parseContext (some t) text = .ok kvs) :
    dictKeys (dictUpdate [] kvs) = relevantKeys t := by
  unfold parseContext at h
  split at h
  all_goals first
    | (simp at h; done)
    | (rename_i heq
       cases Option.some.inj heq
       simp only [parseCareer, parseStudy, parseFinance, parseLove, parseHealth,
         parseGrowth] at h
       split at h
       all_goals first
         | (simp at h; done)
         | (injection h with hh; subst hh; rfl))

/-- Dispatch equation: the career parse branch. -/
lemma parseContext_career (text : String) :
    parseContext (some "career") text = parseCareer ((pySplitComma text).map pyStrip) := rfl

/-- Dispatch equation: the health parse branch. -/
lemma parseContext_health (text : String) :
    parseContext (some "health") text = parseHealth ((pySplitComma text).map pyStrip) := rfl

/-- When the first career field does not convert, the whole career parse
fails. -/
lemma parseCareer_fail {parts : List String} (hF : fieldF parts 0 0 = none) :
    parseCareer parts = .fail := by
  unfold parseCareer
  split <;> simp_all

/-! The claims. -/

/-- Claim C1: for every topic with a rule engine (career, study, finance,
and the generic fallback used for love, health, growth) and every
populated Session, the prob field of the engine result lies in the closed
interval [0.05, 0.95]. -/
theorem prob_within_policy_band (sess : Session) (res : RuleResult)
    (h : career_rule_engine sess = some res ∨ study_rule_engine sess = some res ∨
         finance_rule_engine sess = some res ∨
         ∃ title baseline, res = generic_template_engine sess title baseline) :
    5/100 ≤ res.prob ∧ res.prob ≤ 95/100 := by
  rcases h with h | h | h | ⟨title, baseline, rfl⟩
  · obtain ⟨y, c, p, hp, -, -⟩ := career_rule_engine_shape h
    rw [hp]
    exact round2_clamp_mem _
  · obtain ⟨cur, hrs, ddl, hp, -, -⟩ := study_rule_engine_shape h
    rw [hp]
    exact round2_clamp_mem _
  · obtain ⟨e, d, hp, -, -⟩ := finance_rule_engine_shape h
    rw [hp]
    exact round2_clamp_mem _
  · exact round2_clamp_mem baseline

/-- Witness for prob_within_policy_band, at the generic love engine. -/
theorem prob_within_policy_band_witness :
    5/100 ≤ (generic_template_engine { user_id := 0 } "💞 感情/关系占卜" (55/100)).prob ∧
      (generic_template_engine { user_id := 0 } "💞 感情/关系占卜" (55/100)).prob ≤ 95/100 :=
  prob_within_policy_band { user_id := 0 } _ (Or.inr (Or.inr (Or.inr ⟨_, _, rfl⟩)))

/-- Claim C2: for every rule-engine result, the constants printed in the
explain string - baseline times factor plus the printed additive
adjustments, rounded to two decimals - reproduce the prob field exactly. -/
theorem explain_reconstructs_prob (sess : Session) (res : RuleResult) :
    (career_rule_engine sess = some res →
       ∃ b f a1 a2, res.explain = careerExplain b f a1 a2 ∧
         round2 (b * f + a1 + a2) = res.prob)
  ∧ (study_rule_engine sess = some res →
       ∃ b f a1 a2, res.explain = studyExplain b f a1 a2 ∧
         round2 (b * f + a1 + a2) = res.prob)
  ∧ (finance_rule_engine sess = some res →
       ∃ b f a, res.explain = financeExplain b f a ∧ round2 (b * f + a) = res.prob)
  ∧ (∀ title baseline, baseline ∈ ([55/100, 52/100, 53/100] : List ℚ) →
       res = generic_template_engine sess title baseline →
       ∃ b, res.explain = genericExplain b ∧ round2 b = res.prob) := by
  refine ⟨fun h => ?_, fun h => ?_, fun h => ?_, fun title baseline hb hres => ?_⟩
  · obtain ⟨y, c, p, hp, he, -⟩ := career_rule_engine_shape h
    refine ⟨_, _, _, _, he, ?_⟩
    rw [hp, clamp0595_eq_self (career_formula_mem y c p).1 (career_formula_mem y c p).2]
  · obtain ⟨cur, hrs, ddl, hp, he, -⟩ := study_rule_engine_shape h
    refine ⟨_, _, _, _, he, ?_⟩
    rw [hp, clamp0595_eq_self (study_formula_mem cur hrs ddl).1 (study_formula_mem cur hrs ddl).2]
  · obtain ⟨e, d, hp, he, -⟩ := finance_rule_engine_shape h
    refine ⟨_, _, _, he, ?_⟩
    rw [hp, clamp0595_eq_self (finance_formula_mem e d).1 (finance_formula_mem e d).2]
  · subst hres
    refine ⟨baseline, rfl, ?_⟩
    show round2 baseline = round2 (clamp0595 baseline)
    fin_cases hb <;> rw [clamp0595_eq_self (by norm_num) (by norm_num)]

/-- Witness for explain_reconstructs_prob, at the generic love engine. -/
theorem explain_reconstructs_prob_witness :
    ∃ b, (generic_template_engine { user_id := 0 } "💞 感情/关系占卜" (55/100)).explain
        = genericExplain b ∧
      round2 b = (generic_template_engine { user_id := 0 } "💞 感情/关系占卜" (55/100)).prob :=
  (explain_reconstructs_prob { user_id := 0 } _).2.2.2 "💞 感情/关系占卜" (55/100)
    (List.Mem.head _) rfl

/-- Claim C3: the topics love, health and growth dispatch to the generic
template engine with baselines 0.55, 0.52 and 0.53, and the resulting
prob is exactly that baseline, whatever the contextVars hold. -/
theorem generic_fallback_fixed_baselines (sess : Session) :
    (sess.topic = some "love" →
       ruleResultForTopic sess
         = some (generic_template_engine sess "💞 感情/关系占卜" (55/100)) ∧
       (generic_template_engine sess "💞 感情/关系占卜" (55/100)).prob = 55/100)
  ∧ (sess.topic = some "health" →
       ruleResultForTopic sess
         = some (generic_template_engine sess "🩺 健康/作息占卜" (52/100)) ∧
       (generic_template_engine sess "🩺 健康/作息占卜" (52/100)).prob = 52/100)
  ∧ (sess.topic = some "growth" →
       ruleResultForTopic sess
         = some (generic_template_engine sess "🧭 自我成长占卜" (53/100)) ∧
       (generic_template_engine sess "🧭 自我成长占卜" (53/100)).prob = 53/100) := by
  refine ⟨fun h => ⟨?_, ?_⟩, fun h => ⟨?_, ?_⟩, fun h => ⟨?_, ?_⟩⟩
  · unfold ruleResultForTopic
    rw [h]
    exact rfl
  · show round2 (clamp0595 (55/100)) = 55/100
    decide
  · unfold ruleResultForTopic
    rw [h]
    exact rfl
  · show round2 (clamp0595 (52/100)) = 52/100
    decide
  · unfold ruleResultForTopic
    rw [h]
    exact rfl
  · show round2 (clamp0595 (53/100)) = 53/100
    decide

/-- Witness for generic_fallback_fixed_baselines at a love session. -/
theorem generic_fallback_fixed_baselines_witness :
    ruleResultForTopic { user_id := 0, topic := some "love" }
        = some (generic_template_engine { user_id := 0, topic := some "love" }
            "💞 感情/关系占卜" (55/100)) ∧
      (generic_template_engine { user_id := 0, topic := some "love" }
          "💞 感情/关系占卜" (55/100)).prob = 55/100 :=
  (generic_fallback_fixed_baselines _).1 rfl

/-- Claim C4: in CollectingContext, an input whose required numeric field
does not convert fails the whole parse; the exception is absorbed and the
handler returns COLLECT_CONTEXT with the session untouched. -/
theorem malformed_field_reprompts (sess : Session) (text : String) :
    (parseContext sess.topic (pyStrip text) = .fail →
       on_collect_context (some sess) text = (some sess, COLLECT_CONTEXT))
  ∧ (∀ s, sess.topic = some "career" →
       ((pySplitComma (pyStrip text)).map pyStrip)[0]? = some s →
       pyFloat? s = none →
       parseContext sess.topic (pyStrip text) = .fail) := by
  refine ⟨fun h => on_collect_context_fail h, fun s htopic h0 hf => ?_⟩
  rw [htopic, parseContext_career]
  apply parseCareer_fail
  unfold fieldF
  rw [h0]
  exact hf

/-- Witness for malformed_field_reprompts at the input with a non-numeric
first field. -/
theorem malformed_field_reprompts_witness :
    on_collect_context (some { user_id := 0, topic := some "career" }) "x, 是, 4"
        = (some { user_id := 0, topic := some "career" }, COLLECT_CONTEXT) ∧
      parseContext (some "career") (pyStrip "x, 是, 4") = ParseOutcome.fail := by
  have hfail : parseContext (some "career") (pyStrip "x, 是, 4") = ParseOutcome.fail :=
    (malformed_field_reprompts { user_id := 0, topic := some "career" } "x, 是, 4").2
      "x" rfl (by decide) (by decide)
  exact ⟨(malformed_field_reprompts { user_id := 0, topic := some "career" } "x, 是, 4").1
    hfail, hfail⟩

/-- Claim C5 counterexample: with the rewriting service unavailable, the
function does not return the renderer output unchanged - it appends a
notice, so the result differs from the input text. -/
theorem render_fallback_not_unchanged_cex :
    render_with_llm_or_plain false (fun t => Except.error "boom") "X" "generic" ≠ "X" := by
  decide

/-- Claim C5 (amended): when the rewriting service is unavailable or its
call raises, the function returns the renderer output with a fixed status
annotation appended - the rendered text itself is preserved as the prefix,
with no data loss. -/
theorem render_fallback_appends_note (base_text : String)
    (llm : String → Except String String) (persona : String) :
    (render_with_llm_or_plain false llm base_text persona
       = base_text ++ "\n\n(提示：未设置 OPENAI_API_KEY，当前使用基础文案。)")
  ∧ (∀ e, llm base_text = .error e →
       render_with_llm_or_plain true llm base_text persona
         = base_text ++ "\n\n(LLM 渲染失败，已回退基础文案：" ++ e ++ ")") := by
  constructor
  · rfl
  · intro e he
    unfold render_with_llm_or_plain
    rw [he]
    exact rfl

/-- Witness for render_fallback_appends_note. -/
theorem render_fallback_appends_note_witness :
    (render_with_llm_or_plain false (fun t => Except.error "boom") "X" "generic"
       = "X" ++ "\n\n(提示：未设置 OPENAI_API_KEY，当前使用基础文案。)")
  ∧ render_with_llm_or_plain true (fun t => Except.error "boom") "X" "generic"
       = "X" ++ "\n\n(LLM 渲染失败，已回退基础文案：" ++ "boom" ++ ")" :=
  ⟨(render_fallback_appends_note "X" (fun t => Except.error "boom") "generic").1,
   (render_fallback_appends_note "X" (fun t => Except.error "boom") "generic").2 "boom" rfl⟩

/-- Claim C6 counterexample: the affirmative tokens are matched exactly,
not case-insensitively - the career input with second field YES parses to
portfolio false, although the claim says every case variant of yes is
true. -/
theorem portfolio_uppercase_yes_cex :
    parseContext (some "career") "3, YES, 4"
      = .ok [("years", .floatV 3), ("portfolio", .boolV false),
             ("cash_buffer_months", .floatV 4)] := by
  decide

/-- Claim C6 (amended): the second career field is recognized as true
exactly when it equals one of the six literal tokens 是, 有, yes, Yes, y,
Y (a case-sensitive list); every other value, including other case
variants such as YES, parses to false. -/
theorem portfolio_exact_token_match (text : String) (kvs : AList Value)
    (h : parseContext (some "career") text = .ok kvs) :
    dictGet kvs "portfolio"
      = some (.boolV (affirmatives.contains
          (fieldS ((pySplitComma text).map pyStrip) 1 "否"))) ∧
    affirmatives = ["是", "有", "yes", "Yes", "y", "Y"] := by
  refine ⟨?_, rfl⟩
  rw [parseContext_career] at h
  unfold parseCareer at h
  split at h
  · injection h with hh
    subst hh
    rfl
  · simp at h

/-- Witness for portfolio_exact_token_match at the input 3, yes, 4. -/
theorem portfolio_exact_token_match_witness :
    dictGet [("years", Value.floatV 3), ("portfolio", Value.boolV true),
             ("cash_buffer_months", Value.floatV 4)] "portfolio"
        = some (.boolV (affirmatives.contains
            (fieldS ((pySplitComma "3, yes, 4").map pyStrip) 1 "否"))) ∧
      affirmatives = ["是", "有", "yes", "Yes", "y", "Y"] :=
  portfolio_exact_token_match "3, yes, 4"
    [("years", Value.floatV 3), ("portfolio", Value.boolV true),
     ("cash_buffer_months", Value.floatV 4)] (by decide)

/-- Claim C7: every produced action list has exactly 3 entries - career,
study, finance, the generic fallback and oracle - and the career list is
selected by the branch on the investment micro answer. -/
theorem actions_exactly_three (sess : Session) (res : RuleResult) :
    (career_rule_engine sess = some res →
       res.actions.length = 3 ∧
       res.actions = (if microGet sess.micro "investment" "time" = "time"
                      then career_actions_time else career_actions_budget))
  ∧ (study_rule_engine sess = some res → res.actions.length = 3)
  ∧ (finance_rule_engine sess = some res → res.actions.length = 3)
  ∧ (∀ title baseline, (generic_template_engine sess title baseline).actions.length = 3)
  ∧ oracle_actions.length = 3 := by
  refine ⟨fun h => ?_, fun h => ?_, fun h => ?_, fun title baseline => rfl, rfl⟩
  · obtain ⟨y, c, p, -, -, ha⟩ := career_rule_engine_shape h
    refine ⟨?_, ha⟩
    rw [ha]
    split_ifs <;> rfl
  · obtain ⟨cur, hrs, ddl, -, -, ha⟩ := study_rule_engine_shape h
    rw [ha]
    rfl
  · obtain ⟨e, d, -, -, ha⟩ := finance_rule_engine_shape h
    rw [ha]
    rfl

/-- Witness for actions_exactly_three at a populated career session. -/
theorem actions_exactly_three_witness :
    ({ title := "🌟 事业/工作占卜", horizon := "3m", prob := 55/100,
       explain := "基线0.45 × 经验因子1.05 + 作品集+0.08 + 现金缓冲+0.00",
       opportunity := "在现有赛道做垂直深挖，短期更易获得正反馈",
       risk := "过于保守可能错过周期回暖的上车点",
       actions := career_actions_time } : RuleResult).actions.length = 3 ∧
      ({ title := "🌟 事业/工作占卜", horizon := "3m", prob := 55/100,
         explain := "基线0.45 × 经验因子1.05 + 作品集+0.08 + 现金缓冲+0.00",
         opportunity := "在现有赛道做垂直深挖，短期更易获得正反馈",
         risk := "过于保守可能错过周期回暖的上车点",
         actions := career_actions_time } : RuleResult).actions
        = (if microGet ([] : AList String) "investment" "time" = "time"
           then career_actions_time else career_actions_budget) :=
  (actions_exactly_three
    { user_id := 0, topic := some "career",
      context_vars := [("years", Value.floatV 3), ("portfolio", Value.boolV true),
                       ("cash_buffer_months", Value.floatV 4)] }
    { title := "🌟 事业/工作占卜", horizon := "3m", prob := 55/100,
      explain := "基线0.45 × 经验因子1.05 + 作品集+0.08 + 现金缓冲+0.00",
      opportunity := "在现有赛道做垂直深挖，短期更易获得正反馈",
      risk := "过于保守可能错过周期回暖的上车点",
      actions := career_actions_time }).1 (by decide)

/-- Claim C8: selecting oracle goes straight back to topic choice (no
micro questions), its text is independent of the session (time horizon,
micro answers, contextVars are never read), contains exactly one of the
four fixed theme strings, and contains no probability figure (the 概率
label never occurs). -/
theorem oracle_independent_fixed_content (sess sess2 : Session)
    (sess? : Option Session) (uid : ℤ) (c : Fin 4) :
    (on_topic_callback sess? uid "topic:oracle").2 = CHOOSING_TOPIC
  ∧ generate_oracle sess c = generate_oracle sess2 c
  ∧ (oracle_themes.filter (fun th => hasSubstr (generate_oracle sess c) th.1)).length = 1
  ∧ hasSubstr (generate_oracle sess c) "概率" = false := by
  refine ⟨?_, rfl, ?_, ?_⟩
  · unfold on_topic_callback
    cases sess? <;> rfl
  · have hind : ∀ d : Fin 4, generate_oracle sess d = generate_oracle { user_id := 0 } d :=
      fun d => rfl
    rw [hind c]
    clear hind
    revert c
    decide
  · have hind : ∀ d : Fin 4, generate_oracle sess d = generate_oracle { user_id := 0 } d :=
      fun d => rfl
    rw [hind c]
    clear hind
    revert c
    decide

/-- Claim C9 counterexample: a session reused for a second run without a
new /start keeps the previous topic's context variables - after a career
run followed by a love run, the final session has topic love but still
carries the career key years, which is not a love key. -/
theorem context_vars_stale_across_runs_cex :
    ((runEvents [.cmd_start 1, .callback 1 "topic:career", .callback 1 "t:3m",
        .callback 1 "ori:stable", .callback 1 "inv:time", .message "3, 是, 4",
        .callback 1 "topic:love", .callback 1 "t:1m", .callback 1 "ori:stable",
        .callback 1 "inv:time", .message "暧昧, 3, 同城"]).1.map
          (fun s => (s.topic, dictGet s.context_vars "years",
                     dictGet s.context_vars "status")))
        = some (some "love", some (.floatV 3), some (.strV "暧昧")) ∧
      "years" ∉ relevantKeys "love" := by
  constructor
  · decide
  · decide

/-- Claim C9 (amended): on a freshly created session (empty contextVars,
as /start makes it), one successful parsing pass populates contextVars
with exactly the keys of the current topic; but a session reused for a
later divination run without /start keeps the earlier topic's keys, so
contextVars can then hold keys irrelevant to the current topic. -/
theorem context_vars_fresh_run_relevant_keys (sess : Session) (text : String)
    (kvs : AList Value) (t : String)
    (htopic : sess.topic = some t)
    (hfresh : sess.context_vars = [])
    (hok : parseContext sess.topic (pyStrip text) = .ok kvs) :
    ((on_collect_context (some sess) text).1.map fun s => dictKeys s.context_vars)
      = some (relevantKeys t) := by
  rw [on_collect_context_ok hok]
  show some (dictKeys (dictUpdate sess.context_vars kvs)) = some (relevantKeys t)
  rw [hfresh]
  rw [htopic] at hok
  exact congrArg some (parseContext_ok_fresh_keys hok)

/-- Witness for context_vars_fresh_run_relevant_keys at a fresh career
session. -/
theorem context_vars_fresh_run_relevant_keys_witness :
    ((on_collect_context (some { user_id := 0, topic := some "career" }) "3, 是, 4").1.map
        fun s => dictKeys s.context_vars)
      = some (relevantKeys "career") :=
  context_vars_fresh_run_relevant_keys { user_id := 0, topic := some "career" } "3, 是, 4"
    [("years", Value.floatV 3), ("portfolio", Value.boolV true),
     ("cash_buffer_months", Value.floatV 4)]
    "career" rfl rfl (by decide)

/-- Claim C10: a successful health parse always stores stress as an
integer clamped into [1, 5]; out-of-range third fields are clamped, not
rejected. -/
theorem stress_clamped_one_to_five (text : String) (kvs : AList Value)
    (h : parseContext (some "health") text = .ok kvs) :
    ∃ n : ℤ, dictGet kvs "stress" = some (.intV n) ∧ 1 ≤ n ∧ n ≤ 5 := by
  rw [parseContext_health] at h
  unfold parseHealth at h
  split at h
  · injection h with hh
    subst hh
    exact ⟨_, rfl, le_max_left _ _, max_le (by norm_num) (min_le_right _ _)⟩
  · simp at h

/-- Witness for stress_clamped_one_to_five at the out-of-range input
6.5, 1, 9 (stress stored as 5). -/
theorem stress_clamped_one_to_five_witness :
    parseContext (some "health") "6.5, 1, 9"
        = .ok [("sleep_h", Value.floatV (13/2)), ("sport_freq", Value.floatV 1),
               ("stress", Value.intV 5)] ∧
      ∃ n : ℤ, dictGet [("sleep_h", Value.floatV (13/2)), ("sport_freq", Value.floatV 1),
          ("stress", Value.intV 5)] "stress" = some (.intV n) ∧ 1 ≤ n ∧ n ≤ 5 :=
  ⟨by decide,
   stress_clamped_one_to_five "6.5, 1, 9"
     [("sleep_h", Value.floatV (13/2)), ("sport_freq", Value.floatV 1),
      ("stress", Value.intV 5)] (by decide)⟩

end Lingling
